import Mathlib

/-!
Shallow embedding of `src/py/core/providers/embeddings/openai.py`
(`OpenAIEmbeddingProvider`), a thin adapter over a remote embeddings API.

Python conventions mirrored here:
* optional values (`None`) are `Option`; Python truthiness of strings and
  ints is made explicit (`None`/`""`/`0` are falsy);
* every exception raised by this module is a `ValueError` carrying a message,
  so fallible operations return `Except String _` whose `error` case is
  exactly "raises ValueError with this message";
* the external pieces (the OpenAI HTTP client, the `truncate_texts_to_token_limit`
  utility from `.utils`, and `tiktoken`) are parameters of the functions that
  call them, since their code is outside this module.
-/

namespace R2R

/-- Modelled from the spec: `EmbeddingConfig` (defined in `core.base`, which is
not among the provided sources) carries the configuration inputs the spec
names: a provider name, a model name, an optional fixed output dimensionality,
and an optional separate rerank model. Unset fields are `none`. -/
structure EmbeddingConfig where
  provider : Option String
  base_model : Option String
  base_dimension : Option Int
  rerank_model : Option String
deriving Repr, DecidableEq

/-- Modelled from the spec: the process environment restricted to the two
variables this module reads via `os.getenv` (which yields `none` when the
variable is unset). -/
structure Env where
  OPENAI_EMBEDDING_API_KEY : Option String
  OPENAI_EMBEDDING_API_BASE : Option String
deriving Repr, DecidableEq

/-- Python truthiness of an optional string: `None` and `""` are falsy. -/
def truthyStr : Option String → Bool
  | none => false
  | some s => s ≠ ""

/-- Python truthiness of an optional int: `None` and `0` are falsy. -/
def truthyInt : Option Int → Bool
  | none => false
  | some d => d ≠ 0

/-- Lines 22-26: class attribute `MODEL_TO_TOKENIZER`, a fixed dict from model
name to tokenizer identifier. -/
def MODEL_TO_TOKENIZER : List (String × String) :=
  [("text-embedding-ada-002", "cl100k_base"),
   ("text-embedding-3-small", "cl100k_base"),
   ("text-embedding-3-large", "cl100k_base")]

/-- Lines 27-31: class attribute `MODEL_TO_DIMENSIONS`, a fixed dict from model
name to the list of valid output dimensionalities. -/
def MODEL_TO_DIMENSIONS : List (String × List Int) :=
  [("text-embedding-ada-002", [1536]),
   ("text-embedding-3-small", [512, 1536]),
   ("text-embedding-3-large", [256, 1024, 3072])]

/-- Occurrence of `pat` as a contiguous sublist of `s` (on characters). -/
def strContainsSub (pat : List Char) : List Char → Bool
  | [] => pat.isEmpty
  | a :: t => pat.isPrefixOf (a :: t) || strContainsSub pat t

/-- Python `pat in s` for strings (substring containment test). -/
def pyStrIn (pat s : String) : Bool := strContainsSub pat.data s.data

/-- Python `s.split(c)` for a one-character separator: maximal runs between
occurrences of the separator, keeping empty pieces (so the result is never
empty). -/
def splitOnChar (c : Char) : List Char → List (List Char)
  | [] => [[]]
  | a :: t =>
    match splitOnChar c t with
    | [] => [[a]]
    | h :: r => if a = c then [] :: h :: r else (a :: h) :: r

/-- Python `s.split("/")` on a string. -/
def pySplitSlash (s : String) : List String :=
  (splitOnChar '/' s.data).map String.mk

/-- Lines 58-61 of `__init__`: if `config.base_model` is truthy and contains
`"openai/"`, keep only the part after the last `"/"` (`split("/")[-1]`);
otherwise keep `config.base_model` as is. -/
def normalize_base_model (base_model : Option String) : Option String :=
  if truthyStr base_model ∧ pyStrIn "openai/" (base_model.getD "") then
    some ((pySplitSlash (base_model.getD "")).getLast?.getD "")
  else
    base_model

/-- The state a successfully constructed `OpenAIEmbeddingProvider` carries that
the embedded operations read: the normalized `base_model` and the validated or
defaulted `base_dimension` (the HTTP client objects hold no logic modelled
here). -/
structure OpenAIEmbeddingProvider where
  base_model : String
  base_dimension : Int
deriving Repr, DecidableEq

/-- Lines 33-88: `OpenAIEmbeddingProvider.__init__`. Each `raise ValueError`
of the source is an `Except.error` with the source's message, checked in the
source's order; success yields the provider state. The dict accesses
`MODEL_TO_DIMENSIONS[self.base_model]` are guarded by the membership check on
`MODEL_TO_TOKENIZER` exactly as in the source (the two dicts have the same
keys), and Python's `max` over a (nonempty) list is `max?.getD 0`. -/
def openAIEmbeddingProvider_init (config : EmbeddingConfig) (env : Env) :
    Except String OpenAIEmbeddingProvider :=
  if ¬ truthyStr config.provider then
    Except.error "Must set provider in order to initialize OpenAIEmbeddingProvider."
  else if config.provider ≠ some "openai" then
    Except.error "OpenAIEmbeddingProvider must be initialized with provider `openai`."
  else if ¬ truthyStr env.OPENAI_EMBEDDING_API_KEY then
    Except.error "Must set OPENAI_EMBEDDING_API_KEY in order to initialize OpenAIEmbeddingProvider."
  else if truthyStr config.rerank_model then
    Except.error "OpenAIEmbeddingProvider does not support separate reranking."
  else if ¬ truthyStr (normalize_base_model config.base_model) then
    Except.error "Must set base_model in order to initialize OpenAIEmbeddingProvider."
  else if (MODEL_TO_TOKENIZER.lookup ((normalize_base_model config.base_model).getD "")).isNone then
    Except.error ("OpenAI embedding model " ++ (normalize_base_model config.base_model).getD "" ++ " not supported.")
  else if truthyInt config.base_dimension then
    if config.base_dimension.getD 0 ∉
        (MODEL_TO_DIMENSIONS.lookup ((normalize_base_model config.base_model).getD "")).getD [] then
      Except.error ("Dimensions " ++ toString (config.base_dimension.getD 0) ++ " for " ++
        (normalize_base_model config.base_model).getD "" ++ " are not supported")
    else
      Except.ok { base_model := (normalize_base_model config.base_model).getD "",
                  base_dimension := config.base_dimension.getD 0 }
  else
    Except.ok { base_model := (normalize_base_model config.base_model).getD "",
                base_dimension :=
                  ((MODEL_TO_DIMENSIONS.lookup ((normalize_base_model config.base_model).getD "")).getD
                    []).max?.getD 0 }

/-- A Python `ValueError` outcome of an embedded operation. -/
def raisesValueError {α : Type} : Except String α → Bool
  | Except.error _ => true
  | Except.ok _ => false

/-- The `dimensions` request parameter: either the OpenAI client sentinel
`NOT_GIVEN` (the parameter is omitted) or an explicit integer. -/
inductive DimParam where
  | NOT_GIVEN : DimParam
  | given : Int → DimParam
deriving Repr, DecidableEq

/-- Lines 90-96: `_get_dimensions`. `NOT_GIVEN` for `text-embedding-ada-002`;
otherwise `self.base_dimension or MODEL_TO_DIMENSIONS[self.base_model][-1]`
(Python `or` picks the right operand when `base_dimension` is falsy, and
`[-1]` is the last list element). The dict access is total only for supported
models; as in the rest of the development it is `lookup _ |>.getD []`. -/
def _get_dimensions (self : OpenAIEmbeddingProvider) : DimParam :=
  if self.base_model = "text-embedding-ada-002" then
    DimParam.NOT_GIVEN
  else if self.base_dimension ≠ 0 then
    DimParam.given self.base_dimension
  else
    DimParam.given (((MODEL_TO_DIMENSIONS.lookup self.base_model).getD []).getLast?.getD 0)

/-- Per-call keyword arguments (`**kwargs`) that may override entries of the
request dict built by `_get_embedding_kwargs` (Python `{...} | kwargs` lets
`kwargs` win on the keys `"model"` and `"dimensions"`); `extra` carries any
other keys straight through. An absent key is `none`. -/
structure KwargsIn where
  model : Option String
  dimensions : Option DimParam
  extra : List (String × String)
deriving Repr, DecidableEq

/-- The merged request-parameter dict handed to the embeddings call: always a
`"model"` entry, a `"dimensions"` entry, and the extra per-call entries. -/
structure EmbedKwargs where
  model : String
  dimensions : DimParam
  extra : List (String × String)
deriving Repr, DecidableEq

/-- Lines 98-102: `_get_embedding_kwargs`, the dict merge
`{"model": self.base_model, "dimensions": self._get_dimensions()} | kwargs`. -/
def _get_embedding_kwargs (self : OpenAIEmbeddingProvider) (kwargs : KwargsIn) :
    EmbedKwargs :=
  { model := kwargs.model.getD self.base_model
    dimensions := kwargs.dimensions.getD (_get_dimensions self)
    extra := kwargs.extra }

/-- Modelled from the spec: the pipeline-stage enum `EmbeddingProvider.Step`
from `core.base` (not among the provided sources); only the two members this
module mentions are needed. -/
inductive Step where
  | BASE : Step
  | RERANK : Step
deriving Repr, DecidableEq

/-- A task dict as built by the `get_embedding(s)` entry points: the texts to
embed, the stage, and the per-call kwargs. -/
structure Task where
  texts : List String
  stage : Step
  kwargs : KwargsIn
deriving Repr, DecidableEq

/-- An exception raised by the OpenAI client call: either an
`AuthenticationError` or any other exception, each carrying its message. -/
inductive OpenAIError where
  | authenticationError : String → OpenAIError
  | otherError : String → OpenAIError
deriving Repr, DecidableEq

/-- One element of `response.data` of the embeddings API response; the code
reads only its `embedding` field. -/
structure EmbeddingData where
  embedding : List Float
deriving Repr

/-- Lines 104-128: `_execute_task` (asynchronous path). External pieces are
parameters: `truncate_texts_to_token_limit` (from `.utils`, fallible — the
source wraps it in `contextlib.suppress(Exception)`, so a failure leaves
`texts` unchanged) and `create`, the `self.async_client.embeddings.create`
call, which either returns a response or raises. The truncation only runs
when the merged `kwargs` has a truthy `"model"` entry, and any exception from
the client call is re-raised as `ValueError` with the source's messages. -/
def _execute_task
    (truncate_texts_to_token_limit : List String → String → Except String (List String))
    (create : List String → EmbedKwargs → Except OpenAIError (List EmbeddingData))
    (self : OpenAIEmbeddingProvider) (task : Task) :
    Except String (List (List Float)) :=
  let kwargs := _get_embedding_kwargs self task.kwargs
  let texts :=
    if kwargs.model ≠ "" then
      match truncate_texts_to_token_limit task.texts kwargs.model with
      | Except.ok t => t
      | Except.error _ => task.texts
    else task.texts
  match create texts kwargs with
  | Except.ok response => Except.ok (response.map EmbeddingData.embedding)
  | Except.error (OpenAIError.authenticationError _) =>
      Except.error "Invalid OpenAI API key provided. Please check your OPENAI_API_KEY environment variable."
  | Except.error (OpenAIError.otherError e) =>
      Except.error ("Error getting embeddings: " ++ e)

/-- Lines 130-153: `_execute_task_sync` (synchronous path); the body is the
source's, which is identical to `_execute_task` except that `create` stands
for `self.client.embeddings.create` instead of the async client's method. -/
def _execute_task_sync
    (truncate_texts_to_token_limit : List String → String → Except String (List String))
    (create : List String → EmbedKwargs → Except OpenAIError (List EmbeddingData))
    (self : OpenAIEmbeddingProvider) (task : Task) :
    Except String (List (List Float)) :=
  let kwargs := _get_embedding_kwargs self task.kwargs
  let texts :=
    if kwargs.model ≠ "" then
      match truncate_texts_to_token_limit task.texts kwargs.model with
      | Except.ok t => t
      | Except.error _ => task.texts
    else task.texts
  match create texts kwargs with
  | Except.ok response => Except.ok (response.map EmbeddingData.embedding)
  | Except.error (OpenAIError.authenticationError _) =>
      Except.error "Invalid OpenAI API key provided. Please check your OPENAI_API_KEY environment variable."
  | Except.error (OpenAIError.otherError e) =>
      Except.error ("Error getting embeddings: " ++ e)

/-- Modelled from the spec: a candidate search result (`ChunkSearchResult`
from `core.base`, not among the provided sources). `rerank`/`arerank` never
inspect it, so it is an opaque token identified by an id. -/
structure ChunkSearchResult where
  id : Nat
deriving Repr, DecidableEq

/-- Python's `l[:stop]` for an integer `stop`: the first `stop` elements when
`stop ≥ 0`, and all but the last `-stop` elements when `stop < 0`. -/
def pySliceTo {α : Type} (l : List α) (stop : Int) : List α :=
  if 0 ≤ stop then l.take stop.toNat
  else l.take (l.length - (-stop).toNat)

/-- Lines 229-236: `rerank` returns `results[:limit]`; defaults are
`stage=Step.RERANK` and `limit=10`, and `query`/`stage` are ignored. -/
def rerank (query : String) (results : List ChunkSearchResult)
    (stage : Step := Step.RERANK) (limit : Int := 10) : List ChunkSearchResult :=
  pySliceTo results limit

/-- Lines 238-245: `arerank`, the async variant; its awaited value is the same
`results[:limit]`. -/
def arerank (query : String) (results : List ChunkSearchResult)
    (stage : Step := Step.RERANK) (limit : Int := 10) : List ChunkSearchResult :=
  pySliceTo results limit

/-- Lines 247-253: `tokenize_string`. `tiktoken.get_encoding` is external; it
is a parameter mapping a tokenizer identifier and a text to the token list
that encoding produces (`encoding.encode(text)`). An unsupported model raises
`ValueError`. -/
def tokenize_string (tiktoken_get_encoding : String → String → List Int)
    (model : String) (text : String) : Except String (List Int) :=
  if (MODEL_TO_TOKENIZER.lookup model).isNone then
    Except.error ("OpenAI embedding model " ++ model ++ " not supported.")
  else
    Except.ok (tiktoken_get_encoding ((MODEL_TO_TOKENIZER.lookup model).getD "") text)

/-- The truncation step as `_execute_task`/`_execute_task_sync` apply it: the
truncated texts on success, the original texts when the utility fails (the
source suppresses the exception). -/
def applyTruncation (trunc : List String → String → Except String (List String))
    (texts : List String) (model : String) : List String :=
  match trunc texts model with
  | Except.ok t => t
  | Except.error _ => texts

/-- The exception-to-`ValueError` mapping both execution paths apply to the
outcome of the remote embeddings call. -/
def remote_result_mapping (r : Except OpenAIError (List EmbeddingData)) :
    Except String (List (List Float)) :=
  match r with
  | Except.ok response => Except.ok (response.map EmbeddingData.embedding)
  | Except.error (OpenAIError.authenticationError _) =>
      Except.error "Invalid OpenAI API key provided. Please check your OPENAI_API_KEY environment variable."
  | Except.error (OpenAIError.otherError e) =>
      Except.error ("Error getting embeddings: " ++ e)

/-- Eleven distinct candidate results, one more than the default limit. -/
def elevenResults : List ChunkSearchResult := (List.range 11).map ChunkSearchResult.mk

/-- A truncation utility that truncates every input to the empty list,
making it observable whether truncation ran. -/
def truncToEmpty : List String → String → Except String (List String) :=
  fun _ _ => Except.ok []

/-- A remote call that succeeds only when it receives the untruncated input
`["hello"]`, making the texts it receives observable. -/
def createExpectingHello :
    List String → EmbedKwargs → Except OpenAIError (List EmbeddingData) :=
  fun texts _ =>
    if texts = ["hello"] then Except.ok []
    else Except.error (OpenAIError.otherError "unexpected texts")

/-- A provider as constructed for `text-embedding-3-small`. -/
def providerSmall : OpenAIEmbeddingProvider := ⟨"text-embedding-3-small", 1536⟩

/-- A task whose per-call kwargs override the `"model"` entry with the falsy
`""` (possible because the source merges `{...} | kwargs`). -/
def taskModelOverride : Task := ⟨["hello"], Step.BASE, ⟨some "", none, []⟩⟩

/-- A task with no per-call overrides. -/
def taskNoOverride : Task := ⟨["hello"], Step.BASE, ⟨none, none, []⟩⟩

/-! Shared lemmas about the constructor. -/

/-- A model name with an entry in `MODEL_TO_TOKENIZER` is one of the three
supported names. -/
theorem supported_cases {m : String}
    (hm : (MODEL_TO_TOKENIZER.lookup m).isSome = true) :
    m = "text-embedding-ada-002" ∨ m = "text-embedding-3-small" ∨
      m = "text-embedding-3-large" := by
  by_cases h1 : m = "text-embedding-ada-002"
  · exact Or.inl h1
  by_cases h2 : m = "text-embedding-3-small"
  · exact Or.inr (Or.inl h2)
  by_cases h3 : m = "text-embedding-3-large"
  · exact Or.inr (Or.inr h3)
  have e1 : (m == "text-embedding-ada-002") = false := by simp [h1]
  have e2 : (m == "text-embedding-3-small") = false := by simp [h2]
  have e3 : (m == "text-embedding-3-large") = false := by simp [h3]
  simp [List.lookup, MODEL_TO_TOKENIZER, e1, e2, e3] at hm

/-- Everything a successful construction guarantees: all validation checks
passed, `base_model` is the normalized supported model name, and
`base_dimension` is either the validated configured value or the default
(`max` of the model's dimension list). -/
theorem init_ok_spec {config : EmbeddingConfig} {env : Env}
    {p : OpenAIEmbeddingProvider}
    (h : openAIEmbeddingProvider_init config env = Except.ok p) :
    config.provider = some "openai" ∧
    truthyStr env.OPENAI_EMBEDDING_API_KEY = true ∧
    truthyStr config.rerank_model = false ∧
    ∃ m, normalize_base_model config.base_model = some m ∧ m ≠ "" ∧
      (MODEL_TO_TOKENIZER.lookup m).isSome = true ∧
      p.base_model = m ∧
      ((truthyInt config.base_dimension = true ∧
          p.base_dimension = config.base_dimension.getD 0 ∧
          p.base_dimension ∈ (MODEL_TO_DIMENSIONS.lookup m).getD []) ∨
       (truthyInt config.base_dimension = false ∧
          p.base_dimension =
            ((MODEL_TO_DIMENSIONS.lookup m).getD []).max?.getD 0)) := by
  unfold openAIEmbeddingProvider_init at h
  split_ifs at h with h1 h2 h3 h4 h5 h6 h7 h8
  · -- dimension configured and valid
    rw [Except.ok.injEq] at h
    subst h
    refine ⟨?_, ?_, ?_, (normalize_base_model config.base_model).getD "", ?_, ?_, ?_, rfl, ?_⟩
    · rcases hp : config.provider with _ | s
      · rw [hp] at h1; simp [truthyStr] at h1
      · push_neg at h2; rw [hp] at h2; rw [h2]
    · simpa using h3
    · simpa using h4
    · rcases hb : normalize_base_model config.base_model with _ | s
      · rw [hb] at h5; simp [truthyStr] at h5
      · simp [hb]
    · rw [← Bool.not_eq_false] at h5
      rcases hb : normalize_base_model config.base_model with _ | s
      · rw [hb] at h5; simp [truthyStr] at h5
      · rw [hb] at h5; simpa [truthyStr] using h5
    · simpa [Option.isNone_iff_eq_none, ← Option.ne_none_iff_isSome] using h6
    · exact Or.inl ⟨h7, rfl, by simpa using h8⟩
  · -- dimension unset (or falsy): the default is used
    rw [Except.ok.injEq] at h
    subst h
    refine ⟨?_, ?_, ?_, (normalize_base_model config.base_model).getD "", ?_, ?_, ?_, rfl, ?_⟩
    · rcases hp : config.provider with _ | s
      · rw [hp] at h1; simp [truthyStr] at h1
      · push_neg at h2; rw [hp] at h2; rw [h2]
    · simpa using h3
    · simpa using h4
    · rcases hb : normalize_base_model config.base_model with _ | s
      · rw [hb] at h5; simp [truthyStr] at h5
      · simp [hb]
    · rw [← Bool.not_eq_false] at h5
      rcases hb : normalize_base_model config.base_model with _ | s
      · rw [hb] at h5; simp [truthyStr] at h5
      · rw [hb] at h5; simpa [truthyStr] using h5
    · simpa [Option.isNone_iff_eq_none, ← Option.ne_none_iff_isSome] using h6
    · exact Or.inr ⟨by simpa using h7, rfl⟩

/-- For each supported model, the default dimension (`max` of the dimension
list) is itself in the dimension list. -/
theorem max_dim_mem {m : String}
    (hm : (MODEL_TO_TOKENIZER.lookup m).isSome = true) :
    ((MODEL_TO_DIMENSIONS.lookup m).getD []).max?.getD 0 ∈
      (MODEL_TO_DIMENSIONS.lookup m).getD [] := by
  rcases supported_cases hm with rfl | rfl | rfl <;> decide

/-- For each supported model, `0` is never a valid dimensionality. -/
theorem zero_not_valid_dim {m : String}
    (hm : (MODEL_TO_TOKENIZER.lookup m).isSome = true) :
    (0 : Int) ∉ (MODEL_TO_DIMENSIONS.lookup m).getD [] := by
  rcases supported_cases hm with rfl | rfl | rfl <;> decide

/-- Taking a prefix returns the whole list exactly when the list is at most
that long. -/
theorem take_eq_self_iff_len_le {α : Type} (l : List α) (n : Nat) :
    l.take n = l ↔ l.length ≤ n := by
  constructor
  · intro h
    have := congrArg List.length h
    simp [List.length_take] at this
    omega
  · intro h
    exact List.take_of_length_le h

/-! Claim theorems. -/

/-- C10: for every query, stage, candidate list and non-negative limit,
`rerank` and `arerank` return exactly the first `min(limit, len(results))`
elements of the input, in input order; the output length is
`min(limit, len(results))`, so it never exceeds the limit; and the default
limit is 10. -/
theorem c10_rerank_returns_first_limit_elements (q : String)
    (results : List ChunkSearchResult) (st : Step) (limit : Int)
    (h : 0 ≤ limit) :
    rerank q results st limit = results.take limit.toNat ∧
    (rerank q results st limit).length = min limit.toNat results.length ∧
    arerank q results st limit = results.take limit.toNat ∧
    (arerank q results st limit).length = min limit.toNat results.length ∧
    rerank q results = results.take 10 ∧
    arerank q results = results.take 10 := by
  refine ⟨?_, ?_, ?_, ?_, ?_, ?_⟩ <;>
    simp [rerank, arerank, pySliceTo, h, List.length_take]

/-- C10 witness: the theorem applied at a concrete query, list and limit. -/
theorem c10_witness :
    rerank "q" [⟨1⟩, ⟨2⟩, ⟨3⟩] Step.RERANK 2 = [⟨1⟩, ⟨2⟩] ∧
    (rerank "q" [⟨1⟩, ⟨2⟩, ⟨3⟩] Step.RERANK 2).length = 2 ∧
    arerank "q" [⟨1⟩, ⟨2⟩, ⟨3⟩] Step.RERANK 2 = [⟨1⟩, ⟨2⟩] ∧
    (arerank "q" [⟨1⟩, ⟨2⟩, ⟨3⟩] Step.RERANK 2).length = 2 := by
  obtain ⟨h1, h2, h3, h4, _, _⟩ :=
    c10_rerank_returns_first_limit_elements "q" [⟨1⟩, ⟨2⟩, ⟨3⟩] Step.RERANK 2
      (by decide)
  exact ⟨h1, h2, h3, h4⟩

/-- C1 counterexample: with the default limit of 10, an eleven-element
candidate list is not returned unchanged by `rerank` or `arerank` — the
eleventh element is dropped, so they are not a no-op passthrough. -/
theorem c1_counterexample :
    rerank "query" elevenResults ≠ elevenResults ∧
    arerank "query" elevenResults ≠ elevenResults ∧
    (rerank "query" elevenResults).length = 10 ∧ elevenResults.length = 11 := by
  refine ⟨?_, ?_, ?_, ?_⟩ <;> decide

/-- C1 (amended): `rerank` and `arerank` pass the candidate list through
unchanged exactly when it has at most `limit` elements (default 10); a longer
list is cut to its first `limit` elements. -/
theorem c1_rerank_passthrough_iff_within_limit (q : String)
    (results : List ChunkSearchResult) (st : Step) (limit : Int)
    (h : 0 ≤ limit) :
    (rerank q results st limit = results ↔ results.length ≤ limit.toNat) ∧
    (arerank q results st limit = results ↔ results.length ≤ limit.toNat) := by
  constructor <;>
    simp [rerank, arerank, pySliceTo, h, take_eq_self_iff_len_le]

/-- C1 witness: the amended theorem applied at a concrete query, list and
limit. -/
theorem c1_witness :
    (rerank "q" [⟨7⟩] Step.RERANK 3 = [⟨7⟩] ↔
      ([⟨7⟩] : List ChunkSearchResult).length ≤ (3 : Int).toNat) ∧
    (arerank "q" [⟨7⟩] Step.RERANK 3 = [⟨7⟩] ↔
      ([⟨7⟩] : List ChunkSearchResult).length ≤ (3 : Int).toNat) :=
  c1_rerank_passthrough_iff_within_limit "q" [⟨7⟩] Step.RERANK 3 (by decide)

/-- C7: the asynchronous and synchronous execution paths agree on every task,
for every truncation utility and every behaviour of the remote client call:
same merged request parameters, same truncation, same error mapping, hence
extensionally equal results. -/
theorem c7_sync_async_paths_agree
    (trunc : List String → String → Except String (List String))
    (create : List String → EmbedKwargs → Except OpenAIError (List EmbeddingData))
    (self : OpenAIEmbeddingProvider) (task : Task) :
    _execute_task trunc create self task = _execute_task_sync trunc create self task := rfl

/-- C4: whatever exception the remote embeddings call raises, both execution
paths re-raise it as a `ValueError`: an `AuthenticationError` becomes the
distinct invalid-key message, and every other exception becomes
`"Error getting embeddings: <original error>"`. -/
theorem c4_remote_failures_become_value_errors
    (trunc : List String → String → Except String (List String))
    (self : OpenAIEmbeddingProvider) (task : Task) (err : OpenAIError) :
    _execute_task trunc (fun _ _ => Except.error err) self task =
      Except.error (match err with
        | OpenAIError.authenticationError _ =>
            "Invalid OpenAI API key provided. Please check your OPENAI_API_KEY environment variable."
        | OpenAIError.otherError e => "Error getting embeddings: " ++ e) ∧
    _execute_task_sync trunc (fun _ _ => Except.error err) self task =
      Except.error (match err with
        | OpenAIError.authenticationError _ =>
            "Invalid OpenAI API key provided. Please check your OPENAI_API_KEY environment variable."
        | OpenAIError.otherError e => "Error getting embeddings: " ++ e) := by
  cases err <;> simp [_execute_task, _execute_task_sync]

/-- C5: with any encoding whose token lists are non-empty on non-empty text
(the behaviour of tiktoken's `cl100k_base`), `tokenize_string` returns a
non-empty list of token ids for every supported model and non-empty text, and
raises `ValueError` for every unsupported model name. -/
theorem c5_tokenize_string_spec (enc : String → String → List Int)
    (henc : ∀ name text, text ≠ "" → enc name text ≠ []) :
    (∀ model, (MODEL_TO_TOKENIZER.lookup model).isSome = true →
      ∀ text, text ≠ "" →
        ∃ l, tokenize_string enc model text = Except.ok l ∧ l ≠ []) ∧
    (∀ model, (MODEL_TO_TOKENIZER.lookup model).isNone = true →
      ∀ text, tokenize_string enc model text =
        Except.error ("OpenAI embedding model " ++ model ++ " not supported.")) := by
  constructor
  · intro model hmodel text htext
    refine ⟨enc ((MODEL_TO_TOKENIZER.lookup model).getD "") text, ?_, ?_⟩
    · have hnone : (MODEL_TO_TOKENIZER.lookup model).isNone = false := by
        cases hcase : MODEL_TO_TOKENIZER.lookup model with
        | none => rw [hcase] at hmodel; simp at hmodel
        | some v => rfl
      simp [tokenize_string, hnone]
    · exact henc _ _ htext
  · intro model hmodel text
    simp [tokenize_string, hmodel]

/-- C5 witness: the theorem applied to a concrete conforming encoding, model
and text. -/
theorem c5_witness :
    ∃ l, tokenize_string (fun _ _ => [42]) "text-embedding-3-small" "hello" =
      Except.ok l ∧ l ≠ [] :=
  (c5_tokenize_string_spec (fun _ _ => [42]) (fun _ _ _ => List.cons_ne_nil 42 [])).1
    "text-embedding-3-small" (by decide) "hello" (by decide)

/-- C3: omitting any required configuration value makes construction raise
`ValueError`: an unset provider, a provider other than `"openai"`, an unset
`OPENAI_EMBEDDING_API_KEY` environment variable, an unset `base_model`, or a
normalized base model that is not a supported model. -/
theorem c3_missing_config_raises (config : EmbeddingConfig) (env : Env)
    (h : config.provider = none ∨ config.provider ≠ some "openai" ∨
         env.OPENAI_EMBEDDING_API_KEY = none ∨ config.base_model = none ∨
         ∀ m, normalize_base_model config.base_model = some m →
           (MODEL_TO_TOKENIZER.lookup m).isNone = true) :
    raisesValueError (openAIEmbeddingProvider_init config env) = true := by
  cases hres : openAIEmbeddingProvider_init config env with
  | error msg => rfl
  | ok p =>
    exfalso
    obtain ⟨hp, hk, _, m, hm, _, hsup, _, _⟩ := init_ok_spec hres
    rcases h with h | h | h | h | h
    · rw [h] at hp; simp at hp
    · exact h hp
    · rw [h] at hk; simp [truthyStr] at hk
    · rw [h] at hm; simp [normalize_base_model, truthyStr] at hm
    · have hnone := h m hm
      rw [Option.isNone_iff_eq_none] at hnone
      rw [hnone] at hsup
      simp at hsup

/-- C3 witness: the theorem applied to a configuration with an unset
provider. -/
theorem c3_witness :
    raisesValueError (openAIEmbeddingProvider_init
      ⟨none, some "text-embedding-3-small", none, none⟩
      ⟨some "sk-test", none⟩) = true :=
  c3_missing_config_raises
    ⟨none, some "text-embedding-3-small", none, none⟩
    ⟨some "sk-test", none⟩ (Or.inl rfl)

/-- C2 counterexample: `base_dimension = 0` is set and is not a valid output
dimensionality of `text-embedding-ada-002` (whose only valid dimensionality
is 1536), yet construction does not raise: Python's `if self.base_dimension:`
treats 0 as falsy, so the check is skipped and the default 1536 is used. -/
theorem c2_counterexample :
    (EmbeddingConfig.mk (some "openai") (some "text-embedding-ada-002")
        (some 0) none).base_dimension = some 0 ∧
    (0 : Int) ∉ (MODEL_TO_DIMENSIONS.lookup "text-embedding-ada-002").getD [] ∧
    openAIEmbeddingProvider_init
        ⟨some "openai", some "text-embedding-ada-002", some 0, none⟩
        ⟨some "sk-test", none⟩ =
      Except.ok ⟨"text-embedding-ada-002", 1536⟩ :=
  ⟨rfl, by decide, rfl⟩

/-- With an otherwise valid configuration and a nonzero configured dimension,
construction reduces to the dimension-validation check alone. -/
theorem init_dim_helper (model : String) (d : Int) (key : String)
    (hnorm : normalize_base_model (some model) = some model)
    (hne : model ≠ "")
    (hlk : (MODEL_TO_TOKENIZER.lookup model).isNone = false)
    (hkey : key ≠ "") (hd : d ≠ 0) :
    openAIEmbeddingProvider_init ⟨some "openai", some model, some d, none⟩
      ⟨some key, none⟩ =
    if d ∉ (MODEL_TO_DIMENSIONS.lookup model).getD [] then
      Except.error ("Dimensions " ++ toString d ++ " for " ++ model ++
        " are not supported")
    else Except.ok ⟨model, d⟩ := by
  simp [openAIEmbeddingProvider_init, hnorm, hlk, truthyStr, truthyInt, hkey,
    hd, hne]

/-- C2 (amended): for every supported model and otherwise valid configuration,
a `base_dimension` set to a nonzero value outside the model's valid
dimensionalities makes construction raise `ValueError`, and one inside them
is accepted unchanged (a `base_dimension` of 0 counts as unset and is
replaced by the model's default). -/
theorem c2_dimension_validation (model : String) (d : Int) (key : String)
    (hmodel : (MODEL_TO_TOKENIZER.lookup model).isSome = true)
    (hkey : key ≠ "") (hd : d ≠ 0) :
    (d ∉ (MODEL_TO_DIMENSIONS.lookup model).getD [] →
      raisesValueError (openAIEmbeddingProvider_init
        ⟨some "openai", some model, some d, none⟩ ⟨some key, none⟩) = true) ∧
    (d ∈ (MODEL_TO_DIMENSIONS.lookup model).getD [] →
      openAIEmbeddingProvider_init
        ⟨some "openai", some model, some d, none⟩ ⟨some key, none⟩ =
        Except.ok ⟨model, d⟩) := by
  rcases supported_cases hmodel with rfl | rfl | rfl <;>
    [rw [init_dim_helper "text-embedding-ada-002" d key rfl (by decide) rfl hkey hd];
     rw [init_dim_helper "text-embedding-3-small" d key rfl (by decide) rfl hkey hd];
     rw [init_dim_helper "text-embedding-3-large" d key rfl (by decide) rfl hkey hd]] <;>
    exact ⟨fun hmem => by rw [if_pos hmem]; rfl,
           fun hmem => by rw [if_neg (by simpa using hmem)]⟩

/-- C2 witness: the amended theorem applied at `text-embedding-3-small` with
the invalid nonzero dimensionality 999 and the valid dimensionality 512. -/
theorem c2_witness :
    raisesValueError (openAIEmbeddingProvider_init
      ⟨some "openai", some "text-embedding-3-small", some 999, none⟩
      ⟨some "sk-test", none⟩) = true ∧
    openAIEmbeddingProvider_init
      ⟨some "openai", some "text-embedding-3-small", some 512, none⟩
      ⟨some "sk-test", none⟩ = Except.ok ⟨"text-embedding-3-small", 512⟩ :=
  ⟨(c2_dimension_validation "text-embedding-3-small" 999 "sk-test"
      rfl (by decide) (by decide)).1 (by decide),
   (c2_dimension_validation "text-embedding-3-small" 512 "sk-test"
      rfl (by decide) (by decide)).2 (by decide)⟩

/-- A successfully constructed provider has a supported `base_model` and a
`base_dimension` in that model's dimension list. -/
theorem init_ok_base_dimension_mem {config : EmbeddingConfig} {env : Env}
    {p : OpenAIEmbeddingProvider}
    (h : openAIEmbeddingProvider_init config env = Except.ok p) :
    (MODEL_TO_TOKENIZER.lookup p.base_model).isSome = true ∧
    p.base_dimension ∈ (MODEL_TO_DIMENSIONS.lookup p.base_model).getD [] := by
  obtain ⟨_, _, _, m, _, _, hsup, hbm, hdim⟩ := init_ok_spec h
  subst hbm
  refine ⟨hsup, ?_⟩
  rcases hdim with ⟨_, _, hmem⟩ | ⟨_, hpd⟩
  · exact hmem
  · rw [hpd]; exact max_dim_mem hsup

/-- C8: construction establishes the invariant that `base_dimension` is one of
the configured model's valid dimensionalities, and an unset
`config.base_dimension` is defaulted to the largest dimensionality in
`MODEL_TO_DIMENSIONS` for the model. -/
theorem c8_base_dimension_invariant (config : EmbeddingConfig) (env : Env)
    (p : OpenAIEmbeddingProvider)
    (h : openAIEmbeddingProvider_init config env = Except.ok p) :
    p.base_dimension ∈ (MODEL_TO_DIMENSIONS.lookup p.base_model).getD [] ∧
    (config.base_dimension = none →
      p.base_dimension =
        ((MODEL_TO_DIMENSIONS.lookup p.base_model).getD []).max?.getD 0) := by
  refine ⟨(init_ok_base_dimension_mem h).2, ?_⟩
  obtain ⟨_, _, _, m, _, _, _, hbm, hdim⟩ := init_ok_spec h
  subst hbm
  intro hnone
  rcases hdim with ⟨ht, _, _⟩ | ⟨_, hpd⟩
  · rw [hnone] at ht; simp [truthyInt] at ht
  · exact hpd

/-- C8 witness: the theorem applied to a configuration with an unset
`base_dimension`; the default is the model's largest dimensionality, 3072. -/
theorem c8_witness :
    (OpenAIEmbeddingProvider.mk "text-embedding-3-large" 3072).base_dimension ∈
      (MODEL_TO_DIMENSIONS.lookup
        (OpenAIEmbeddingProvider.mk "text-embedding-3-large" 3072).base_model).getD [] ∧
    ((EmbeddingConfig.mk (some "openai") (some "text-embedding-3-large") none
        none).base_dimension = none →
      (OpenAIEmbeddingProvider.mk "text-embedding-3-large" 3072).base_dimension =
        ((MODEL_TO_DIMENSIONS.lookup
          (OpenAIEmbeddingProvider.mk "text-embedding-3-large"
            3072).base_model).getD []).max?.getD 0) :=
  c8_base_dimension_invariant
    ⟨some "openai", some "text-embedding-3-large", none, none⟩
    ⟨some "sk-test", none⟩ ⟨"text-embedding-3-large", 3072⟩ rfl

/-- C9: on any successfully constructed provider, the `dimensions` request
parameter (absent a per-call override) is `NOT_GIVEN` exactly when the model
is `text-embedding-ada-002`, and equals the provider's (configured or
defaulted) `base_dimension` for every other supported model. -/
theorem c9_dimensions_request_parameter (config : EmbeddingConfig) (env : Env)
    (p : OpenAIEmbeddingProvider)
    (h : openAIEmbeddingProvider_init config env = Except.ok p) :
    (p.base_model = "text-embedding-ada-002" →
      ∀ kw : KwargsIn, kw.dimensions = none →
        (_get_embedding_kwargs p kw).dimensions = DimParam.NOT_GIVEN) ∧
    (p.base_model ≠ "text-embedding-ada-002" →
      ∀ kw : KwargsIn, kw.dimensions = none →
        (_get_embedding_kwargs p kw).dimensions = DimParam.given p.base_dimension) := by
  obtain ⟨hsup, hmem⟩ := init_ok_base_dimension_mem h
  have hnz : p.base_dimension ≠ 0 := by
    intro h0
    rw [h0] at hmem
    exact zero_not_valid_dim hsup hmem
  constructor
  · intro hada kw hkw
    simp [_get_embedding_kwargs, _get_dimensions, hada, hkw]
  · intro hada kw hkw
    simp [_get_embedding_kwargs, _get_dimensions, hada, hkw, hnz]

/-- C9 witness: the theorem applied to a provider constructed for
`text-embedding-3-small` with configured dimensionality 512. -/
theorem c9_witness :
    ((OpenAIEmbeddingProvider.mk "text-embedding-3-small" 512).base_model =
        "text-embedding-ada-002" →
      ∀ kw : KwargsIn, kw.dimensions = none →
        (_get_embedding_kwargs ⟨"text-embedding-3-small", 512⟩ kw).dimensions =
          DimParam.NOT_GIVEN) ∧
    ((OpenAIEmbeddingProvider.mk "text-embedding-3-small" 512).base_model ≠
        "text-embedding-ada-002" →
      ∀ kw : KwargsIn, kw.dimensions = none →
        (_get_embedding_kwargs ⟨"text-embedding-3-small", 512⟩ kw).dimensions =
          DimParam.given
            (OpenAIEmbeddingProvider.mk "text-embedding-3-small" 512).base_dimension) :=
  c9_dimensions_request_parameter
    ⟨some "openai", some "text-embedding-3-small", some 512, none⟩
    ⟨some "sk-test", none⟩ ⟨"text-embedding-3-small", 512⟩ rfl

/-- C6 counterexample: when the per-call kwargs override `"model"` with the
falsy `""`, both execution paths skip the truncation step entirely and call
the remote API with the original texts. The remote call here succeeds only on
the untruncated `["hello"]`, and the truncation utility would have replaced
them by `[]` — yet both paths return the success, so the input texts were not
passed through the truncation step before the call. -/
theorem c6_counterexample :
    taskModelOverride.kwargs.model = some "" ∧
    _execute_task truncToEmpty createExpectingHello providerSmall
      taskModelOverride = Except.ok [] ∧
    _execute_task_sync truncToEmpty createExpectingHello providerSmall
      taskModelOverride = Except.ok [] ∧
    truncToEmpty taskModelOverride.texts providerSmall.base_model =
      Except.ok [] ∧
    createExpectingHello []
      (_get_embedding_kwargs providerSmall taskModelOverride.kwargs) =
      Except.error (OpenAIError.otherError "unexpected texts") :=
  ⟨rfl, rfl, rfl, rfl, rfl⟩

/-- C6 (amended): whenever the per-call kwargs do not override the `"model"`
request parameter (and the configured model name is non-empty, as every
supported model name is), both execution paths pass the input texts through
the token-limit truncation step with the configured model — truncation
failures suppressed — before the remote embeddings call, whose outcome is
then mapped to the result. -/
theorem c6_truncation_precedes_call
    (trunc : List String → String → Except String (List String))
    (create : List String → EmbedKwargs → Except OpenAIError (List EmbeddingData))
    (self : OpenAIEmbeddingProvider) (task : Task)
    (hkw : task.kwargs.model = none) (hbm : self.base_model ≠ "") :
    _execute_task trunc create self task =
      remote_result_mapping
        (create (applyTruncation trunc task.texts self.base_model)
          (_get_embedding_kwargs self task.kwargs)) ∧
    _execute_task_sync trunc create self task =
      remote_result_mapping
        (create (applyTruncation trunc task.texts self.base_model)
          (_get_embedding_kwargs self task.kwargs)) := by
  have hm : (_get_embedding_kwargs self task.kwargs).model = self.base_model := by
    simp [_get_embedding_kwargs, hkw]
  constructor <;>
    simp only [_execute_task, _execute_task_sync, remote_result_mapping,
      applyTruncation, hm, ne_eq, hbm, not_false_eq_true, if_true]

/-- C6 witness: the amended theorem applied to a concrete truncation utility,
remote call, provider and override-free task. -/
theorem c6_witness :
    _execute_task truncToEmpty createExpectingHello providerSmall
      taskNoOverride =
      remote_result_mapping
        (createExpectingHello
          (applyTruncation truncToEmpty taskNoOverride.texts
            providerSmall.base_model)
          (_get_embedding_kwargs providerSmall taskNoOverride.kwargs)) ∧
    _execute_task_sync truncToEmpty createExpectingHello providerSmall
      taskNoOverride =
      remote_result_mapping
        (createExpectingHello
          (applyTruncation truncToEmpty taskNoOverride.texts
            providerSmall.base_model)
          (_get_embedding_kwargs providerSmall taskNoOverride.kwargs)) :=
  c6_truncation_precedes_call truncToEmpty createExpectingHello providerSmall
    taskNoOverride rfl (by decide)

end R2R
